import Mathlib

/-!
Shallow embedding of the student-records CRUD application
(`app/app.py` console variant, `app/flask_app.py` web variant) and proofs
about its validation and persistence layer.

Python strings are modelled as Lean `String`/`List Char`.  The Python
runtime primitives the code calls (`str.strip`, `str.lower`, `str.isdigit`,
`int`, `datetime.strptime`, the `re` email pattern) are modelled explicitly
below; the PostgreSQL backing store described by the spec's schema
(`students` with a serial primary key and `UNIQUE(email)`) is modelled as a
list of rows plus a next-id counter, with each SQL statement an explicit
state transformer that can fail with a driver error.
-/

/-- Models the character class `\s` of Python's `re` module and the default
whitespace set of `str.strip`, restricted to the ASCII whitespace
characters (space, tab, newline, vertical tab, form feed, carriage
return). -/
def pyIsSpace (c : Char) : Bool :=
  c = ' ' || c = '\t' || c = '\n' || c = '\x0b' || c = '\x0c' || c = '\r'

/-- `str.strip()` on a list of characters: drop whitespace from both ends. -/
def pyStripL (l : List Char) : List Char :=
  ((l.dropWhile pyIsSpace).reverse.dropWhile pyIsSpace).reverse

/-- `str.strip()` on a `String`. -/
def pyStrip (s : String) : String :=
  ⟨pyStripL s.toList⟩

/-- ASCII lower-casing of one character; models `str.lower()` on the ASCII
range used by this application. -/
def pyLowerChar (c : Char) : Char :=
  if 'A' ≤ c ∧ c ≤ 'Z' then Char.ofNat (c.toNat + 32) else c

/-- `str.lower()` on a `String` (ASCII model). -/
def pyLower (s : String) : String :=
  ⟨s.toList.map pyLowerChar⟩

/-- The character class `[^@\s]` of the email pattern: any character that is
neither `@` nor whitespace. -/
def atomChar (c : Char) : Bool :=
  !(c = '@') && !pyIsSpace c

/-- All ways of consuming one-or-more `atomChar` characters from the front of
`l` (the backtracking semantics of `[^@\s]+`): each member is the suffix that
remains after consuming some non-empty all-atom prefix. -/
def plusSuffixes : List Char → List (List Char)
  | [] => []
  | c :: rest => if atomChar c then rest :: plusSuffixes rest else []

/-- `l.head? == some c`. -/
def headIs (c : Char) (l : List Char) : Bool :=
  l.head? == some c

/-- The part of the pattern after the `@`: `[^@\s]+\.[^@\s]+$` — consume
one-or-more atoms, a literal `.`, then one-or-more atoms reaching the end. -/
def afterAtPart (r2 : List Char) : Bool :=
  (plusSuffixes r2).any fun r3 =>
    headIs '.' r3 && (!r3.tail.isEmpty && r3.tail.all atomChar)

/-- Full match of `^[^@\s]+@[^@\s]+\.[^@\s]+$` against `l`. -/
def emailRegexMatch (l : List Char) : Bool :=
  (plusSuffixes l).any fun r1 =>
    headIs '@' r1 && afterAtPart r1.tail

/-- `looks_like_email` from `app/app.py`:
`bool(re.match(r"^[^@\s]+@[^@\s]+\.[^@\s]+$", (s or "").strip()))`. -/
def looks_like_email (s : String) : Bool :=
  emailRegexMatch (pyStripL s.toList)

/-- `email_ok` from `app/flask_app.py`: the same pattern applied to the
trimmed string. -/
def email_ok (s : String) : Bool :=
  emailRegexMatch (pyStripL s.toList)

/-- The check as claim C1 words it: the trimmed string contains exactly one
`@`, no whitespace, and at least one `.` appearing after the `@`. -/
def claimedEmailCheck (s : String) : Bool :=
  let t := pyStripL s.toList
  t.count '@' = 1 && !t.any pyIsSpace &&
    ((t.dropWhile (fun c => !(c = '@'))).drop 1).contains '.'

/-- The trimmed string decomposes as `A` `@` `C` `.` `D` with `A`, `C`, `D`
non-empty and made of non-`@`, non-whitespace characters: the exact language
of the pattern `^[^@\s]+@[^@\s]+\.[^@\s]+$`. -/
def emailShape (t : List Char) : Prop :=
  ∃ A C D : List Char, A ≠ [] ∧ C ≠ [] ∧ D ≠ [] ∧
    A.all atomChar = true ∧ C.all atomChar = true ∧ D.all atomChar = true ∧
    t = A ++ '@' :: (C ++ '.' :: D)


/-- ASCII digit test. -/
def isAsciiDigit (c : Char) : Bool :=
  '0' ≤ c && c ≤ '9'

/-- Models Python `str.isdigit` on one character, restricted to the
characters this development uses: true for the ASCII digits and for the
Unicode superscript digits `¹ ² ³` (U+00B9, U+00B2, U+00B3), which Python
classifies as digits although `int()` rejects them. -/
def pyIsDigit (c : Char) : Bool :=
  isAsciiDigit c || c = '¹' || c = '²' || c = '³'

/-- Models Python `str.isdigit()` on a string: non-empty and every character
a digit. -/
def pyIsdigitStr (s : String) : Bool :=
  !s.toList.isEmpty && s.toList.all pyIsDigit

/-- Numeric value of a string of ASCII digits. -/
def natOfDigits (s : String) : Nat :=
  s.toList.foldl (fun a c => 10 * a + (c.toNat - 48)) 0

/-- Models Python `int()` on the strings reaching it here (already
whitespace-stripped, no sign): an all-ASCII-digit string converts to its
value; anything else — in particular the superscript digits that pass
`str.isdigit` — raises `ValueError`, modelled as `none`. -/
def pyInt? (s : String) : Option Nat :=
  if !s.toList.isEmpty && s.toList.all isAsciiDigit then some (natOfDigits s) else none

/-- Gregorian leap-year rule, as used by Python's `datetime`. -/
def isLeap (y : Nat) : Bool :=
  y % 4 == 0 && (y % 100 != 0 || y % 400 == 0)

/-- Days in a month of the proleptic Gregorian calendar. -/
def daysInMonth (y m : Nat) : Nat :=
  if m = 2 then (if isLeap y then 29 else 28)
  else if m = 4 ∨ m = 6 ∨ m = 9 ∨ m = 11 then 30 else 31

/-- Numeric value of a list of ASCII digits. -/
def natOfDigitsL (l : List Char) : Nat :=
  l.foldl (fun a c => 10 * a + (c.toNat - 48)) 0

/-- Split a character list on `-`, like Python's `s.split("-")`: the fields
between the separators, empty fields included. -/
def fieldsOnDash : List Char → List (List Char)
  | [] => [[]]
  | c :: rest =>
    if c = '-' then [] :: fieldsOnDash rest
    else
      match fieldsOnDash rest with
      | [] => [[c]]
      | f :: fs => (c :: f) :: fs

/-- Models `datetime.strptime(s, "%Y-%m-%d")` succeeding on `s`: the string
splits on `-` into exactly year (exactly four digits), month and day (one or
two digits each), and the values form a real calendar date with year ≥ 1
(Python's `datetime.MINYEAR`). -/
def validDateStr (s : String) : Bool :=
  match fieldsOnDash s.toList with
  | [ys, ms, ds] =>
    (!ys.isEmpty && ys.all isAsciiDigit) &&
    (!ms.isEmpty && ms.all isAsciiDigit) &&
    (!ds.isEmpty && ds.all isAsciiDigit) &&
    decide (ys.length = 4 ∧ ms.length ≤ 2 ∧ ds.length ≤ 2 ∧
      1 ≤ natOfDigitsL ys ∧ 1 ≤ natOfDigitsL ms ∧ natOfDigitsL ms ≤ 12 ∧
      1 ≤ natOfDigitsL ds ∧ natOfDigitsL ds ≤ daysInMonth (natOfDigitsL ys) (natOfDigitsL ms))
  | _ => false

/-- `parse_date_or_none` from `app/app.py`: strip the input; blank gives
`None`; otherwise return the stripped string when `strptime` accepts it and
`None` when it raises. -/
def parse_date_or_none (s : String) : Option String :=
  let t := pyStrip s
  if t = "" then none
  else if validDateStr t then some t else none

/-- One row of the `students` table. -/
structure Student where
  sid : Nat
  first : String
  last : String
  email : String
  enroll : Option String
deriving Repr, DecidableEq

/-- The backing store: the rows of `students` plus the serial sequence for
`student_id`.  Modelled from the spec's schema (section 6): serial primary
key, `email` unique, `enrollment_date` nullable. -/
structure DB where
  rows : List Student
  nextId : Nat
deriving Repr, DecidableEq

/-- Driver-level errors surfaced as `psycopg2.Error`.  `pgcode` is `23505`
for a unique violation, `22007` for an unparsable date literal, and `None`
for a connectivity failure. -/
inductive PgErr where
  | uniqueViolation
  | invalidDate
  | connectionFailure
deriving Repr, DecidableEq

/-- The `pgcode` attribute of the corresponding `psycopg2.Error`. -/
def pgcode : PgErr → Option String
  | .uniqueViolation => some "23505"
  | .invalidDate => some "22007"
  | .connectionFailure => none

/-- Exceptions that can escape a request handler: a driver error that no
`except` clause catches, or Python's `ValueError` from `int()`. -/
inductive Exn where
  | valueError
  | pg (e : PgErr)
deriving Repr, DecidableEq

/-- Ordering of rows by `student_id`, the `ORDER BY student_id` of the
SELECT. -/
def sidLe (a b : Student) : Prop := a.sid ≤ b.sid

instance : DecidableRel sidLe := fun a b => Nat.decLe a.sid b.sid

instance : IsTotal Student sidLe := ⟨fun a b => Nat.le_total a.sid b.sid⟩

instance : IsTrans Student sidLe := ⟨fun _ _ _ hab hbc => Nat.le_trans hab hbc⟩

/-- `SELECT ... FROM students ORDER BY student_id`.  Modelled from the spec's
schema; fails only when the backend is unreachable (`avail = false`). -/
def dbSelectAll (avail : Bool) (db : DB) : Except PgErr (List Student) :=
  if !avail then .error .connectionFailure
  else .ok (List.insertionSort sidLe db.rows)

/-- `INSERT INTO students(first_name, last_name, email, enrollment_date)
VALUES (...)`.  Modelled from the spec's schema: the backend rejects an
unparsable date literal (`22007`) and an email equal to an existing row's
email (`UNIQUE(email)`, `23505`); otherwise it appends the row with the next
serial id. -/
def dbInsert (avail : Bool) (db : DB) (first last email : String)
    (date : Option String) : Except PgErr DB :=
  if !avail then .error .connectionFailure
  else if date.any (fun d => !validDateStr d) then .error .invalidDate
  else if db.rows.any (fun r => r.email == email) then .error .uniqueViolation
  else .ok { rows := db.rows ++ [⟨db.nextId, first, last, email, date⟩],
             nextId := db.nextId + 1 }

/-- The effect of the UPDATE on one row: rows matching the WHERE clause get
the new email, others are unchanged. -/
def setEmail (sid : Nat) (email : String) (r : Student) : Student :=
  if r.sid = sid then { r with email := email } else r

/-- `UPDATE students SET email=%s WHERE student_id=%s`.  Modelled from the
spec's schema: raises `23505` when the update would copy an email already on
a different row; otherwise returns the affected row count and the new
state. -/
def dbUpdateEmail (avail : Bool) (db : DB) (sid : Nat) (email : String) :
    Except PgErr (Nat × DB) :=
  if !avail then .error .connectionFailure
  else if !(db.rows.countP (fun r => r.sid == sid) == 0) &&
          db.rows.any (fun r => !(r.sid == sid) && r.email == email) then
    .error .uniqueViolation
  else .ok (db.rows.countP (fun r => r.sid == sid),
            { db with rows := db.rows.map (setEmail sid email) })

/-- `DELETE FROM students WHERE student_id=%s`.  Modelled from the spec's
schema: returns the affected row count and the remaining rows. -/
def dbDelete (avail : Bool) (db : DB) (sid : Nat) : Except PgErr (Nat × DB) :=
  if !avail then .error .connectionFailure
  else .ok (db.rows.countP (fun r => r.sid == sid),
            { db with rows := db.rows.filter (fun r => !(r.sid == sid)) })

/-- Console output events: `msg_ok`, `msg_err`, `print(frame_title t)`,
`print(e)` for a caught driver error, the rendered table, a blank line, and
the `no rows` marker.  The boxed text layout of `frame_title`/`draw_table`
is presentation detail and is abstracted to the event carrying its payload. -/
inductive Msg where
  | okMsg (text : String)
  | errMsg (text : String)
  | errDb (op : String) (e : PgErr)
  | frame (title : String)
  | errDetail (e : PgErr)
  | table
  | blank
  | noRows
deriving Repr, DecidableEq

/-- Result of the console `getAllStudents`: the returned row list and the
console output.  The function never changes the store. -/
structure ListOut where
  ret : List Student
  msgs : List Msg
deriving Repr, DecidableEq

/-- Result of a console mutating operation: the returned boolean, the store
state after the call, and the console output. -/
structure OpOut where
  ret : Bool
  db : DB
  msgs : List Msg
deriving Repr, DecidableEq

/-- Result of the console `addStudent`, additionally recording whether the
INSERT statement was issued to the store. -/
structure CAddOut where
  ret : Bool
  db : DB
  msgs : List Msg
  attempted : Bool
deriving Repr, DecidableEq

/-- `getAllStudents` from `app/app.py`: SELECT all rows ordered by id, print
them; on `psycopg2.Error` (and on any other exception) print a `database
error` (resp. `unexpected error`) frame plus the error and return `[]`. -/
def getAllStudents (avail : Bool) (db : DB) : ListOut :=
  match dbSelectAll avail db with
  | .ok rows =>
    if rows.isEmpty then
      ⟨rows, [.blank, .frame "all students", .blank, .noRows, .blank]⟩
    else
      ⟨rows, [.blank, .frame "all students", .blank, .table, .blank]⟩
  | .error e => ⟨[], [.frame "database error", .errDetail e]⟩

/-- `addStudent` from `app/app.py`: trim first/last, trim-and-lower the
email, parse the date; reject missing fields, a malformed email, and a
non-blank unparsable date before touching the store; then INSERT, mapping
`pgcode 23505` to the duplicate-email message and any other driver error to
the generic one. -/
def addStudent (avail : Bool) (db : DB)
    (first_name last_name email_in enrollment_date : String) : CAddOut :=
  let first := pyStrip first_name
  let last := pyStrip last_name
  let email := pyLower (pyStrip email_in)
  let date := parse_date_or_none enrollment_date
  if first = "" ∨ last = "" ∨ email = "" then
    ⟨false, db, [.errMsg "first, last, and email are required."], false⟩
  else if !looks_like_email email then
    ⟨false, db, [.errMsg "invalid email format."], false⟩
  else if enrollment_date ≠ "" ∧ date = none then
    ⟨false, db, [.errMsg "enrollment_date must be YYYY-MM-DD (or leave blank)."], false⟩
  else
    match dbInsert avail db first last email date with
    | .ok db' => ⟨true, db', [.okMsg "student added."], true⟩
    | .error .uniqueViolation =>
      ⟨false, db, [.errMsg "email already exists (must be unique)."], true⟩
    | .error e => ⟨false, db, [.errDb "add" e], true⟩

/-- `updateStudentEmail` from `app/app.py`.  The `int(sid_raw)` conversion
sits before the `try` block, so a `ValueError` from it (a digit-classified
character `int` rejects) escapes the function; this is the `.error
.valueError` outcome.  Inside the `try`, a zero row count reports `no
student with that id.`, `pgcode 23505` reports the in-use message, and any
other driver error the generic one. -/
def updateStudentEmail (avail : Bool) (db : DB) (student_id new_email : String) :
    Except Exn OpOut :=
  let sid_raw := pyStrip student_id
  if !pyIsdigitStr sid_raw then
    .ok ⟨false, db, [.errMsg "student id must be a positive integer."]⟩
  else
    match pyInt? sid_raw with
    | none => .error .valueError
    | some sid =>
      let email := pyLower (pyStrip new_email)
      if !looks_like_email email then
        .ok ⟨false, db, [.errMsg "invalid email format."]⟩
      else
        match dbUpdateEmail avail db sid email with
        | .error .uniqueViolation =>
          .ok ⟨false, db, [.errMsg "that email is already in use."]⟩
        | .error e => .ok ⟨false, db, [.errDb "update" e]⟩
        | .ok (0, _) => .ok ⟨false, db, [.errMsg "no student with that id."]⟩
        | .ok (_ + 1, db') => .ok ⟨true, db', [.okMsg "email updated."]⟩

/-- `deleteStudent` from `app/app.py`.  As in `updateStudentEmail`, the
`int(sid_raw)` conversion sits before the `try` block and its `ValueError`
escapes.  Every `psycopg2.Error` maps to the generic delete message (there
is no `23505` branch here). -/
def deleteStudent (avail : Bool) (db : DB) (student_id : String) :
    Except Exn OpOut :=
  let sid_raw := pyStrip student_id
  if !pyIsdigitStr sid_raw then
    .ok ⟨false, db, [.errMsg "student id must be a positive integer."]⟩
  else
    match pyInt? sid_raw with
    | none => .error .valueError
    | some sid =>
      match dbDelete avail db sid with
      | .error e => .ok ⟨false, db, [.errDb "delete" e]⟩
      | .ok (0, _) => .ok ⟨false, db, [.errMsg "no student with that id."]⟩
      | .ok (_ + 1, db') => .ok ⟨true, db', [.okMsg "student deleted."]⟩

/-- Flash messages produced by the web routes in `app/flask_app.py`,
abstracted to carry their interpolated payloads. -/
inductive FMsg where
  | okFlash (text : String)
  | errMissing (field : String)
  | errEmailInvalid (email : String)
  | errDupEmail (email : String)
  | errDb (op : String) (e : PgErr)
  | errNoStudent (sid : String)
  | errBadId (sid : String)
deriving Repr, DecidableEq

/-- Result of the web `add` route, recording whether the INSERT statement was
issued to the store. -/
structure WebAddOut where
  db : DB
  flashes : List FMsg
  attempted : Bool
deriving Repr, DecidableEq

/-- `fetch_all` from `app/flask_app.py`: the SELECT with no `try`/`except` —
any driver error propagates to the caller (and on to the framework). -/
def fetch_all (avail : Bool) (db : DB) : Except PgErr (List Student) :=
  dbSelectAll avail db

/-- The `add` route from `app/flask_app.py`.  Unlike the console variant, the
date field is only stripped (blank becomes NULL) and is never validated: a
non-blank unparsable date reaches the INSERT and comes back as a driver
error.  `pgcode 23505` maps to the duplicate-email flash; other driver
errors to the generic one. -/
def add (avail : Bool) (db : DB)
    (first_name last_name email_in enrollment_date : String) : WebAddOut :=
  let first := pyStrip first_name
  let last := pyStrip last_name
  let email := pyLower (pyStrip email_in)
  let date : Option String :=
    if pyStrip enrollment_date = "" then none else some (pyStrip enrollment_date)
  if first = "" then ⟨db, [.errMissing "first_name"], false⟩
  else if last = "" then ⟨db, [.errMissing "last_name"], false⟩
  else if email = "" then ⟨db, [.errMissing "email"], false⟩
  else if !email_ok email then ⟨db, [.errEmailInvalid email], false⟩
  else
    match dbInsert avail db first last email date with
    | .ok db' => ⟨db', [.okFlash "student added"], true⟩
    | .error .uniqueViolation => ⟨db, [.errDupEmail email], true⟩
    | .error e => ⟨db, [.errDb "add" e], true⟩

/-- The `update_email` route from `app/flask_app.py`.  The `int(sid)`
conversion happens inside the `try` when the execute arguments are built —
after the connection is acquired — but its `ValueError` is not a
`psycopg2.Error`, so it escapes the route unhandled. -/
def update_email (avail : Bool) (db : DB) (student_id new_email : String) :
    Except Exn (DB × List FMsg) :=
  let sid := pyStrip student_id
  let email := pyLower (pyStrip new_email)
  if !pyIsdigitStr sid then .ok (db, [.errBadId sid])
  else if !email_ok email then .ok (db, [.errEmailInvalid email])
  else if !avail then .ok (db, [.errDb "update" .connectionFailure])
  else
    match pyInt? sid with
    | none => .error .valueError
    | some n =>
      match dbUpdateEmail true db n email with
      | .error .uniqueViolation => .ok (db, [.errDupEmail email])
      | .error e => .ok (db, [.errDb "update" e])
      | .ok (0, _) => .ok (db, [.errNoStudent sid])
      | .ok (_ + 1, db') => .ok (db', [.okFlash "email updated"])

/-- The `delete` route from `app/flask_app.py`.  There is no `try`/`except`
at all: a connection failure (a `psycopg2.Error`) and the `ValueError` from
`int(sid)` both propagate out of the route unhandled. -/
def delete (avail : Bool) (db : DB) (student_id : String) :
    Except Exn (DB × List FMsg) :=
  let sid := pyStrip student_id
  if !pyIsdigitStr sid then .ok (db, [.errBadId sid])
  else if !avail then .error (.pg .connectionFailure)
  else
    match pyInt? sid with
    | none => .error .valueError
    | some n =>
      match dbDelete true db n with
      | .error e => .error (.pg e)
      | .ok (0, _) => .ok (db, [.errNoStudent sid])
      | .ok (_ + 1, db') => .ok (db', [.okFlash "student deleted"])

theorem mem_plusSuffixes {l r : List Char} :
    r ∈ plusSuffixes l ↔ ∃ a, a ≠ [] ∧ a.all atomChar = true ∧ l = a ++ r := by
  induction l generalizing r with
  | nil =>
    simp only [plusSuffixes, List.not_mem_nil, false_iff]
    rintro ⟨a, hne, -, heq⟩
    rcases List.append_eq_nil.mp heq.symm with ⟨rfl, -⟩
    exact hne rfl
  | cons c rest ih =>
    by_cases hc : atomChar c = true
    · simp only [plusSuffixes, hc, if_true, List.mem_cons]
      constructor
      · rintro (rfl | hr)
        · exact ⟨[c], by simp, by simp [hc], rfl⟩
        · obtain ⟨a, hne, hall, rfl⟩ := ih.mp hr
          exact ⟨c :: a, by simp, by simp [hc, List.all_eq_true] at hall ⊢; exact hall, rfl⟩
      · rintro ⟨a, hne, hall, heq⟩
        cases a with
        | nil => exact absurd rfl hne
        | cons b a' =>
          injection heq with hb hrest
          cases a' with
          | nil => exact Or.inl hrest.symm
          | cons d a'' =>
            refine Or.inr (ih.mpr ⟨d :: a'', by simp, ?_, hrest⟩)
            simp [List.all_eq_true] at hall ⊢
            exact hall.2
    · simp only [plusSuffixes]
      rw [if_neg hc]
      simp only [List.not_mem_nil, false_iff]
      rintro ⟨a, hne, hall, heq⟩
      cases a with
      | nil => exact hne rfl
      | cons b a' =>
        injection heq with hb hrest
        simp [List.all_eq_true] at hall
        exact hc (by rw [hb]; exact hall.1)

theorem headIs_iff {c : Char} {l : List Char} :
    headIs c l = true ↔ ∃ t, l = c :: t := by
  cases l with
  | nil => simp [headIs]
  | cons b t =>
    simp only [headIs, List.head?, Option.some.injEq, beq_iff_eq]
    constructor
    · rintro rfl; exact ⟨t, rfl⟩
    · rintro ⟨t', heq⟩
      exact (List.cons.injEq _ _ _ _ ▸ heq).1

theorem emailRegexMatch_iff (t : List Char) :
    emailRegexMatch t = true ↔ emailShape t := by
  constructor
  · intro h
    simp only [emailRegexMatch, List.any_eq_true, Bool.and_eq_true] at h
    obtain ⟨r1, hr1, hhead, hrest⟩ := h
    obtain ⟨A, hAne, hAall, rfl⟩ := mem_plusSuffixes.mp hr1
    obtain ⟨r2, rfl⟩ := headIs_iff.mp hhead
    simp only [List.tail_cons] at hrest
    simp only [afterAtPart, List.any_eq_true, Bool.and_eq_true] at hrest
    obtain ⟨r3, hr3, hdot, hlast⟩ := hrest
    obtain ⟨C, hCne, hCall, rfl⟩ := mem_plusSuffixes.mp hr3
    obtain ⟨D, rfl⟩ := headIs_iff.mp hdot
    simp only [List.tail_cons, Bool.and_eq_true] at hlast
    refine ⟨A, C, D, hAne, hCne, ?_, hAall, hCall, hlast.2, rfl⟩
    intro hD
    rw [hD] at hlast
    simp [List.isEmpty] at hlast
  · rintro ⟨A, C, D, hAne, hCne, hDne, hAall, hCall, hDall, rfl⟩
    simp only [emailRegexMatch, List.any_eq_true, Bool.and_eq_true]
    refine ⟨'@' :: (C ++ '.' :: D), mem_plusSuffixes.mpr ⟨A, hAne, hAall, rfl⟩,
      headIs_iff.mpr ⟨_, rfl⟩, ?_⟩
    simp only [List.tail_cons, afterAtPart, List.any_eq_true, Bool.and_eq_true]
    refine ⟨'.' :: D, mem_plusSuffixes.mpr ⟨C, hCne, hCall, rfl⟩,
      headIs_iff.mpr ⟨_, rfl⟩, ?_, hDall⟩
    cases D with
    | nil => exact absurd rfl hDne
    | cons d D' => simp [List.isEmpty]

/-- `email_ok` and `looks_like_email` are the same check. -/
theorem email_ok_eq_looks_like_email (s : String) : email_ok s = looks_like_email s :=
  rfl

/-- C1 counterexample: on the input `"a@b."` — exactly one `@`, no
whitespace, a `.` after the `@` — the claimed characterization says `true`,
but the code's check (`looks_like_email` / `email_ok`) returns `false`,
because the pattern `^[^@\s]+@[^@\s]+\.[^@\s]+$` demands at least one
character after the `.`. -/
theorem C1_counterexample :
    claimedEmailCheck "a@b." = true ∧ looks_like_email "a@b." = false ∧
      email_ok "a@b." = false := by
  decide

/-- C1 (amended): for every string `s`, the email syntax check
(`looks_like_email` = `email_ok`, applied to the trimmed string) returns
true iff the trimmed string splits as `A@C.D` where `A`, `C`, `D` are
non-empty and contain no `@` and no whitespace — equivalently: exactly one
`@`, no whitespace, at least one character before the `@`, and some `.`
after the `@` with at least one character between the `@` and the `.` and at
least one character after the `.`. -/
theorem C1_amended_email_syntax (s : String) :
    (looks_like_email s = true ↔ emailShape (pyStripL s.toList)) ∧
    (email_ok s = true ↔ emailShape (pyStripL s.toList)) :=
  ⟨emailRegexMatch_iff _, emailRegexMatch_iff _⟩

/-- On a reachable store, `getAllStudents` returns the insertion sort of the
rows by id. -/
theorem getAllStudents_ret (db : DB) :
    (getAllStudents true db).ret = List.insertionSort sidLe db.rows := by
  unfold getAllStudents dbSelectAll
  by_cases h : (List.insertionSort sidLe db.rows).isEmpty <;> simp [h]

/-- C3 counterexample: the web variant's `fetch_all` has no error handling —
on a connectivity failure it propagates the driver error to its caller
instead of returning an empty sequence. -/
theorem C3_counterexample :
    fetch_all false { rows := [⟨1, "Ada", "L", "ada@x.com", none⟩], nextId := 2 }
      = .error .connectionFailure :=
  rfl

/-- C3 (amended): the console `getAllStudents` returns every row ordered by
ascending id, and on a connectivity failure returns an empty sequence while
printing the database-error frame; the web `fetch_all` also returns the
ordered rows but propagates any failure to its caller instead of handling
it. -/
theorem C3_amended_listAll (db : DB) :
    ((getAllStudents true db).ret.Perm db.rows ∧
     List.Sorted sidLe (getAllStudents true db).ret) ∧
    (getAllStudents false db).ret = [] ∧
    (getAllStudents false db).msgs = [.frame "database error", .errDetail .connectionFailure] ∧
    fetch_all true db = .ok (List.insertionSort sidLe db.rows) ∧
    fetch_all false db = .error .connectionFailure := by
  refine ⟨⟨?_, ?_⟩, rfl, rfl, rfl, rfl⟩
  · rw [getAllStudents_ret]
    exact List.perm_insertionSort sidLe db.rows
  · rw [getAllStudents_ret]
    exact List.sorted_insertionSort sidLe db.rows

/-- C4 counterexample: the web `delete` route has no `try`/`except` — a
connectivity failure propagates out of the route as an unhandled exception
(fatal to the request) instead of being reported as a message. -/
theorem C4_counterexample :
    delete false { rows := [⟨1, "Ada", "L", "ada@x.com", none⟩], nextId := 2 } "1"
      = .error (.pg .connectionFailure) :=
  rfl

/-- C4 (amended): a backend/connectivity failure is caught and reported as
an error message, with the interface returning to its ready state, by every
console operation and by the web `add` and `update_email` routes; the web
`fetch_all` (behind `GET /`) and `delete` route have no handler and let the
failure propagate to the framework as an unhandled exception, fatal to that
request (though not to the process). -/
theorem C4_amended_backend_failure (db : DB) (first last email sid newEmail : String)
    (hf : pyStrip first ≠ "") (hl : pyStrip last ≠ "")
    (he0 : pyLower (pyStrip email) ≠ "")
    (he : looks_like_email (pyLower (pyStrip email)) = true)
    (hsd : pyIsdigitStr (pyStrip sid) = true)
    (hsn : ∃ n, pyInt? (pyStrip sid) = some n)
    (hne : looks_like_email (pyLower (pyStrip newEmail)) = true) :
    getAllStudents false db = ⟨[], [.frame "database error", .errDetail .connectionFailure]⟩ ∧
    addStudent false db first last email "" = ⟨false, db, [.errDb "add" .connectionFailure], true⟩ ∧
    updateStudentEmail false db sid newEmail = .ok ⟨false, db, [.errDb "update" .connectionFailure]⟩ ∧
    deleteStudent false db sid = .ok ⟨false, db, [.errDb "delete" .connectionFailure]⟩ ∧
    add false db first last email "" = ⟨db, [.errDb "add" .connectionFailure], true⟩ ∧
    update_email false db sid newEmail = .ok (db, [.errDb "update" .connectionFailure]) ∧
    delete false db sid = .error (.pg .connectionFailure) ∧
    fetch_all false db = .error .connectionFailure := by
  obtain ⟨n, hn⟩ := hsn
  refine ⟨rfl, ?_, ?_, ?_, ?_, ?_, ?_, rfl⟩
  · simp [addStudent, dbInsert, hf, hl, he0, he]
  · simp [updateStudentEmail, dbUpdateEmail, hsd, hn, hne]
  · simp [deleteStudent, dbDelete, hsd, hn]
  · simp [add, email_ok_eq_looks_like_email, dbInsert, hf, hl, he0, he]
  · simp [update_email, email_ok_eq_looks_like_email, hsd, hne]
  · simp [delete, hsd]

/-- Witness for `C4_amended_backend_failure` at a concrete store and
inputs. -/
theorem C4_amended_backend_failure_witness :
    updateStudentEmail false ⟨[], 1⟩ "1" "b@c.d"
      = .ok ⟨false, ⟨[], 1⟩, [.errDb "update" .connectionFailure]⟩ ∧
    delete false ⟨[], 1⟩ "1" = .error (.pg .connectionFailure) := by
  have h := C4_amended_backend_failure ⟨[], 1⟩ "A" "B" "a@b.c" "1" "b@c.d"
    (by decide) (by decide) (by decide) (by decide) (by decide) ⟨1, by decide⟩ (by decide)
  exact ⟨h.2.2.1, h.2.2.2.2.2.2.1⟩

/-- A blank date parses to `None`. -/
theorem parse_date_blank : parse_date_or_none "" = none :=
  rfl

/-- When `parse_date_or_none` succeeds it returns the stripped string, which
`strptime` accepts. -/
theorem parse_date_or_none_some {d t : String} (h : parse_date_or_none d = some t) :
    t = pyStrip d ∧ validDateStr (pyStrip d) = true := by
  unfold parse_date_or_none at h
  by_cases h1 : pyStrip d = ""
  · simp [h1] at h
  · by_cases h2 : validDateStr (pyStrip d) = true
    · simp [h1, h2] at h
      exact ⟨h.symm, h2⟩
    · simp [h1, h2] at h

/-- C2 counterexample: at the web `add` route with the unparsable date
`"banana"` (all other fields valid), the insert IS attempted — the date is
passed to the store unvalidated and the failure comes back as a generic
backend error, not as an `InvalidDate` validation error. -/
theorem C2_counterexample :
    add true ⟨[], 1⟩ "A" "B" "a@b.c" "banana"
      = ⟨⟨[], 1⟩, [.errDb "add" .invalidDate], true⟩ := by
  decide

/-- C2 (amended): in the console `addStudent`, a non-empty enrollment date
that fails to parse as `YYYY-MM-DD` fails with the date validation message
and no insert is attempted, and a blank date is accepted and stored as null;
the web `add` route, by contrast, never validates the date — a non-blank
unparsable date is passed to the store, the insert is attempted, and the
failure surfaces as a backend error. -/
theorem C2_amended_date_handling (avail : Bool) (db : DB) (first last email date : String)
    (hf : pyStrip first ≠ "") (hl : pyStrip last ≠ "")
    (he0 : pyLower (pyStrip email) ≠ "")
    (he : looks_like_email (pyLower (pyStrip email)) = true) :
    (date ≠ "" → parse_date_or_none date = none →
      addStudent avail db first last email date =
        ⟨false, db, [.errMsg "enrollment_date must be YYYY-MM-DD (or leave blank)."], false⟩) ∧
    (db.rows.any (fun r => r.email == pyLower (pyStrip email)) = false →
      addStudent true db first last email "" =
        ⟨true, { rows := db.rows ++ [⟨db.nextId, pyStrip first, pyStrip last,
                   pyLower (pyStrip email), none⟩], nextId := db.nextId + 1 },
          [.okMsg "student added."], true⟩) ∧
    (pyStrip date ≠ "" → validDateStr (pyStrip date) = false →
      add true db first last email date = ⟨db, [.errDb "add" .invalidDate], true⟩) := by
  refine ⟨?_, ?_, ?_⟩
  · intro hne hnone
    simp [addStudent, hf, hl, he0, he, hne, hnone]
  · intro hfresh
    simp [addStudent, dbInsert, parse_date_blank, hf, hl, he0, he, hfresh]
  · intro hds hbad
    simp [add, email_ok_eq_looks_like_email, dbInsert, hf, hl, he0, he, hds, hbad]

/-- Witness for `C2_amended_date_handling` at concrete inputs. -/
theorem C2_amended_date_handling_witness :
    addStudent true ⟨[], 1⟩ "Ada" "Lovelace" "ada@x.com" "not-a-date" =
      ⟨false, ⟨[], 1⟩, [.errMsg "enrollment_date must be YYYY-MM-DD (or leave blank)."], false⟩ ∧
    add true ⟨[], 1⟩ "Ada" "Lovelace" "ada@x.com" "not-a-date" =
      ⟨⟨[], 1⟩, [.errDb "add" .invalidDate], true⟩ := by
  have h := C2_amended_date_handling true ⟨[], 1⟩ "Ada" "Lovelace" "ada@x.com" "not-a-date"
    (by decide) (by decide) (by decide) (by decide)
  exact ⟨h.1 (by decide) (by decide), h.2.2 (by decide) (by decide)⟩

/-- C5: for every id (any accepted digit spelling, parsing to `n`) and
syntactically valid email, on a reachable store both update variants return
the not-found outcome exactly when zero rows match the id, the
duplicate-email outcome exactly when the id exists and the normalized email
already sits on a different row (the backend's `23505`), and otherwise
succeed, writing the updated state. -/
theorem C5_update_outcomes (db : DB) (sidS email : String) (n : Nat)
    (hsd : pyIsdigitStr (pyStrip sidS) = true)
    (hn : pyInt? (pyStrip sidS) = some n)
    (he : looks_like_email (pyLower (pyStrip email)) = true) :
    (db.rows.countP (fun r => r.sid == n) = 0 →
      updateStudentEmail true db sidS email
        = .ok ⟨false, db, [.errMsg "no student with that id."]⟩ ∧
      update_email true db sidS email = .ok (db, [.errNoStudent (pyStrip sidS)])) ∧
    (db.rows.countP (fun r => r.sid == n) ≠ 0 →
      db.rows.any (fun r => !(r.sid == n) && r.email == pyLower (pyStrip email)) = true →
      updateStudentEmail true db sidS email
        = .ok ⟨false, db, [.errMsg "that email is already in use."]⟩ ∧
      update_email true db sidS email = .ok (db, [.errDupEmail (pyLower (pyStrip email))])) ∧
    (db.rows.countP (fun r => r.sid == n) ≠ 0 →
      db.rows.any (fun r => !(r.sid == n) && r.email == pyLower (pyStrip email)) = false →
      updateStudentEmail true db sidS email
        = .ok ⟨true, { db with rows := db.rows.map (setEmail n (pyLower (pyStrip email))) },
               [.okMsg "email updated."]⟩ ∧
      update_email true db sidS email
        = .ok ({ db with rows := db.rows.map (setEmail n (pyLower (pyStrip email))) },
               [.okFlash "email updated"])) := by
  refine ⟨?_, ?_, ?_⟩
  · intro h0
    constructor
    · simp [updateStudentEmail, dbUpdateEmail, hsd, hn, he, h0]
    · simp [update_email, email_ok_eq_looks_like_email, dbUpdateEmail, hsd, hn, he, h0]
  · intro hne0 hconf
    obtain ⟨k, hk⟩ := Nat.exists_eq_succ_of_ne_zero hne0
    constructor
    · simp [updateStudentEmail, dbUpdateEmail, hsd, hn, he, hk, hconf]
    · simp [update_email, email_ok_eq_looks_like_email, dbUpdateEmail, hsd, hn, he, hk, hconf]
  · intro hne0 hconf
    obtain ⟨k, hk⟩ := Nat.exists_eq_succ_of_ne_zero hne0
    constructor
    · simp [updateStudentEmail, dbUpdateEmail, hsd, hn, he, hk, hconf]
    · simp [update_email, email_ok_eq_looks_like_email, dbUpdateEmail, hsd, hn, he, hk, hconf]

/-- Witness for `C5_update_outcomes` at a concrete store: id 1 exists, id 2
does not. -/
theorem C5_update_outcomes_witness :
    updateStudentEmail true ⟨[⟨1, "Ada", "L", "ada@x.com", none⟩], 2⟩ "2" "new@x.com"
      = .ok ⟨false, ⟨[⟨1, "Ada", "L", "ada@x.com", none⟩], 2⟩,
             [.errMsg "no student with that id."]⟩ ∧
    updateStudentEmail true ⟨[⟨1, "Ada", "L", "ada@x.com", none⟩], 2⟩ "1" "new@x.com"
      = .ok ⟨true, ⟨[⟨1, "Ada", "L", "new@x.com", none⟩], 2⟩, [.okMsg "email updated."]⟩ := by
  have h2 := C5_update_outcomes ⟨[⟨1, "Ada", "L", "ada@x.com", none⟩], 2⟩ "2" "new@x.com" 2
    (by decide) (by decide) (by decide)
  have h1 := C5_update_outcomes ⟨[⟨1, "Ada", "L", "ada@x.com", none⟩], 2⟩ "1" "new@x.com" 1
    (by decide) (by decide) (by decide)
  refine ⟨(h2.1 (by decide)).1, ?_⟩
  have := (h1.2.2 (by decide) (by decide)).1
  simpa [setEmail] using this

/-- A predicate's count is nonzero iff some element satisfies it. -/
theorem countP_ne_zero_iff_any {α : Type} (p : α → Bool) (l : List α) :
    l.countP p ≠ 0 ↔ l.any p = true := by
  rw [Ne, List.countP_eq_zero, List.any_eq_true]
  constructor
  · intro h
    by_contra hno
    exact h fun a ha hpa => hno ⟨a, ha, hpa⟩
  · rintro ⟨a, ha, hpa⟩ h
    exact h a ha hpa

/-- C6: with a syntactically valid new email that no other row already holds,
updating an existing id succeeds in both variants and the resulting store —
what a following `listAll` renders — shows that id's email as the trimmed,
lower-cased submission while every other field of that record and every
other record are unchanged (each surviving row is exactly `setEmail` of an
original row); on a non-existent id both variants report not-found and the
store is returned unchanged. -/
theorem C6_update_frame (db : DB) (sidS email : String) (n : Nat)
    (hsd : pyIsdigitStr (pyStrip sidS) = true)
    (hn : pyInt? (pyStrip sidS) = some n)
    (he : looks_like_email (pyLower (pyStrip email)) = true)
    (hnoconf : db.rows.any (fun r => !(r.sid == n) && r.email == pyLower (pyStrip email)) = false) :
    (db.rows.any (fun r => r.sid == n) = true →
      updateStudentEmail true db sidS email
        = .ok ⟨true, { db with rows := db.rows.map (setEmail n (pyLower (pyStrip email))) },
               [.okMsg "email updated."]⟩ ∧
      update_email true db sidS email
        = .ok ({ db with rows := db.rows.map (setEmail n (pyLower (pyStrip email))) },
               [.okFlash "email updated"]) ∧
      (∀ r ∈ db.rows, r.sid ≠ n →
        r ∈ (getAllStudents true
              { db with rows := db.rows.map (setEmail n (pyLower (pyStrip email))) }).ret) ∧
      (∀ r ∈ db.rows, r.sid = n →
        { r with email := pyLower (pyStrip email) } ∈ (getAllStudents true
              { db with rows := db.rows.map (setEmail n (pyLower (pyStrip email))) }).ret) ∧
      (∀ r' ∈ (getAllStudents true
              { db with rows := db.rows.map (setEmail n (pyLower (pyStrip email))) }).ret,
        ∃ r, r ∈ db.rows ∧ r' = setEmail n (pyLower (pyStrip email)) r)) ∧
    (db.rows.any (fun r => r.sid == n) = false →
      updateStudentEmail true db sidS email
        = .ok ⟨false, db, [.errMsg "no student with that id."]⟩ ∧
      update_email true db sidS email = .ok (db, [.errNoStudent (pyStrip sidS)])) := by
  constructor
  · intro hex
    have hne0 : db.rows.countP (fun r => r.sid == n) ≠ 0 :=
      (countP_ne_zero_iff_any _ _).mpr hex
    obtain ⟨k, hk⟩ := Nat.exists_eq_succ_of_ne_zero hne0
    refine ⟨?_, ?_, ?_, ?_, ?_⟩
    · simp [updateStudentEmail, dbUpdateEmail, hsd, hn, he, hk, hnoconf]
    · simp [update_email, email_ok_eq_looks_like_email, dbUpdateEmail, hsd, hn, he, hk, hnoconf]
    · intro r hr hrne
      rw [getAllStudents_ret]
      simp only [List.mem_insertionSort]
      exact List.mem_map.mpr ⟨r, hr, by simp [setEmail, hrne]⟩
    · intro r hr hreq
      rw [getAllStudents_ret]
      simp only [List.mem_insertionSort]
      exact List.mem_map.mpr ⟨r, hr, by simp [setEmail, hreq]⟩
    · intro r' hr'
      rw [getAllStudents_ret] at hr'
      simp only [List.mem_insertionSort] at hr'
      obtain ⟨r, hr, rfl⟩ := List.mem_map.mp hr'
      exact ⟨r, hr, rfl⟩
  · intro hnex
    have h0 : db.rows.countP (fun r => r.sid == n) = 0 := by
      rw [List.countP_eq_zero]
      intro a ha
      exact (List.any_eq_false.mp hnex) a ha
    exact ⟨by simp [updateStudentEmail, dbUpdateEmail, hsd, hn, he, h0],
           by simp [update_email, email_ok_eq_looks_like_email, dbUpdateEmail, hsd, hn, he, h0]⟩

/-- Witness for `C6_update_frame` at a concrete two-row store. -/
theorem C6_update_frame_witness :
    updateStudentEmail true ⟨[⟨1, "Ada", "L", "ada@x.com", none⟩,
                              ⟨2, "Grace", "H", "grace@x.com", some "2020-01-01"⟩], 3⟩
        "1" "New@X.com"
      = .ok ⟨true, ⟨[⟨1, "Ada", "L", "new@x.com", none⟩,
                     ⟨2, "Grace", "H", "grace@x.com", some "2020-01-01"⟩], 3⟩,
             [.okMsg "email updated."]⟩ ∧
    updateStudentEmail true ⟨[⟨1, "Ada", "L", "ada@x.com", none⟩,
                              ⟨2, "Grace", "H", "grace@x.com", some "2020-01-01"⟩], 3⟩
        "9" "New@X.com"
      = .ok ⟨false, ⟨[⟨1, "Ada", "L", "ada@x.com", none⟩,
                      ⟨2, "Grace", "H", "grace@x.com", some "2020-01-01"⟩], 3⟩,
             [.errMsg "no student with that id."]⟩ := by
  have h1 := C6_update_frame ⟨[⟨1, "Ada", "L", "ada@x.com", none⟩,
    ⟨2, "Grace", "H", "grace@x.com", some "2020-01-01"⟩], 3⟩ "1" "New@X.com" 1
    (by decide) (by decide) (by decide) (by decide)
  have h9 := C6_update_frame ⟨[⟨1, "Ada", "L", "ada@x.com", none⟩,
    ⟨2, "Grace", "H", "grace@x.com", some "2020-01-01"⟩], 3⟩ "9" "New@X.com" 9
    (by decide) (by decide) (by decide) (by decide)
  refine ⟨?_, (h9.2 (by decide)).1⟩
  have := (h1.1 (by decide)).1
  simpa [setEmail] using this

/-- After filtering out the rows satisfying `p`, none remain. -/
theorem countP_filter_not {α : Type} (p : α → Bool) (l : List α) :
    (l.filter (fun a => !p a)).countP p = 0 := by
  rw [List.countP_eq_zero]
  intro a ha
  have h := (List.mem_filter.mp ha).2
  simp only [Bool.not_eq_true'] at h
  simp [h]

/-- C7: deleting an existing id succeeds in both variants, the resulting
store is the original minus the rows with that id (so a following `listAll`
no longer contains it), and a second delete of the same id reports not-found
in both variants, leaving the store unchanged. -/
theorem C7_delete_semantics (db : DB) (sidS : String) (n : Nat)
    (hsd : pyIsdigitStr (pyStrip sidS) = true)
    (hn : pyInt? (pyStrip sidS) = some n)
    (hex : db.rows.any (fun r => r.sid == n) = true) :
    deleteStudent true db sidS
      = .ok ⟨true, { db with rows := db.rows.filter (fun r => !(r.sid == n)) },
             [.okMsg "student deleted."]⟩ ∧
    delete true db sidS
      = .ok ({ db with rows := db.rows.filter (fun r => !(r.sid == n)) },
             [.okFlash "student deleted"]) ∧
    (∀ r ∈ (getAllStudents true
          { db with rows := db.rows.filter (fun r => !(r.sid == n)) }).ret, r.sid ≠ n) ∧
    deleteStudent true { db with rows := db.rows.filter (fun r => !(r.sid == n)) } sidS
      = .ok ⟨false, { db with rows := db.rows.filter (fun r => !(r.sid == n)) },
             [.errMsg "no student with that id."]⟩ ∧
    delete true { db with rows := db.rows.filter (fun r => !(r.sid == n)) } sidS
      = .ok ({ db with rows := db.rows.filter (fun r => !(r.sid == n)) },
             [.errNoStudent (pyStrip sidS)]) := by
  have hne0 : db.rows.countP (fun r => r.sid == n) ≠ 0 :=
    (countP_ne_zero_iff_any _ _).mpr hex
  obtain ⟨k, hk⟩ := Nat.exists_eq_succ_of_ne_zero hne0
  have h0 := countP_filter_not (fun r : Student => r.sid == n) db.rows
  refine ⟨?_, ?_, ?_, ?_, ?_⟩
  · simp [deleteStudent, dbDelete, hsd, hn, hk]
  · simp [delete, dbDelete, hsd, hn, hk]
  · intro r hr
    rw [getAllStudents_ret] at hr
    simp only [List.mem_insertionSort] at hr
    have h := (List.mem_filter.mp hr).2
    simp only [Bool.not_eq_true'] at h
    simpa using h
  · simp [deleteStudent, dbDelete, hsd, hn, h0]
  · simp [delete, dbDelete, hsd, hn, h0]

/-- Witness for `C7_delete_semantics` at a concrete store. -/
theorem C7_delete_semantics_witness :
    deleteStudent true ⟨[⟨7, "Ada", "L", "ada@x.com", none⟩], 8⟩ "7"
      = .ok ⟨true, ⟨[], 8⟩, [.okMsg "student deleted."]⟩ ∧
    deleteStudent true ⟨[], 8⟩ "7"
      = .ok ⟨false, ⟨[], 8⟩, [.errMsg "no student with that id."]⟩ := by
  have h := C7_delete_semantics ⟨[⟨7, "Ada", "L", "ada@x.com", none⟩], 8⟩ "7" 7
    (by decide) (by decide) (by decide)
  exact ⟨by simpa using h.1, by simpa using h.2.2.2.1⟩

/-- A stripped blank string is blank. -/
theorem pyStrip_empty : pyStrip "" = "" :=
  rfl

/-- A valid non-blank date parses to its stripped spelling. -/
theorem parse_date_valid {d : String} (hds : pyStrip d ≠ "")
    (hval : validDateStr (pyStrip d) = true) :
    parse_date_or_none d = some (pyStrip d) := by
  simp [parse_date_or_none, hds, hval]

/-- Console insert success: with valid fields, an acceptable date and a fresh
normalized email, `addStudent` appends the normalized row under the next
serial id. -/
theorem addStudent_success (db : DB) (f l e d : String)
    (hf : pyStrip f ≠ "") (hl : pyStrip l ≠ "")
    (he0 : pyLower (pyStrip e) ≠ "") (hv : looks_like_email (pyLower (pyStrip e)) = true)
    (hd : d = "" ∨ (pyStrip d ≠ "" ∧ validDateStr (pyStrip d) = true))
    (hfresh : db.rows.any (fun r => r.email == pyLower (pyStrip e)) = false) :
    addStudent true db f l e d
      = ⟨true, { rows := db.rows ++ [⟨db.nextId, pyStrip f, pyStrip l, pyLower (pyStrip e),
                   parse_date_or_none d⟩], nextId := db.nextId + 1 },
         [.okMsg "student added."], true⟩ := by
  rcases hd with rfl | ⟨hds, hval⟩
  · simp [addStudent, dbInsert, parse_date_blank, hf, hl, he0, hv, hfresh]
  · have hparse := parse_date_valid hds hval
    simp [addStudent, dbInsert, hf, hl, he0, hv, hfresh, hparse, hval]

/-- Console insert duplicate: with valid fields and an acceptable date, if
some row already holds the normalized email, `addStudent` reports the
duplicate-email message (the backend's `23505`) and leaves the store
unchanged. -/
theorem addStudent_duplicate (db : DB) (f l e d : String)
    (hf : pyStrip f ≠ "") (hl : pyStrip l ≠ "")
    (he0 : pyLower (pyStrip e) ≠ "") (hv : looks_like_email (pyLower (pyStrip e)) = true)
    (hd : d = "" ∨ (pyStrip d ≠ "" ∧ validDateStr (pyStrip d) = true))
    (hdup : db.rows.any (fun r => r.email == pyLower (pyStrip e)) = true) :
    addStudent true db f l e d
      = ⟨false, db, [.errMsg "email already exists (must be unique)."], true⟩ := by
  rcases hd with rfl | ⟨hds, hval⟩
  · simp [addStudent, dbInsert, parse_date_blank, hf, hl, he0, hv, hdup]
  · have hparse := parse_date_valid hds hval
    simp [addStudent, dbInsert, hf, hl, he0, hv, hdup, hparse, hval]

/-- Web insert success, analogous to `addStudent_success`. -/
theorem add_success (db : DB) (f l e d : String)
    (hf : pyStrip f ≠ "") (hl : pyStrip l ≠ "")
    (he0 : pyLower (pyStrip e) ≠ "") (hv : looks_like_email (pyLower (pyStrip e)) = true)
    (hd : pyStrip d = "" ∨ validDateStr (pyStrip d) = true)
    (hfresh : db.rows.any (fun r => r.email == pyLower (pyStrip e)) = false) :
    add true db f l e d
      = ⟨{ rows := db.rows ++ [⟨db.nextId, pyStrip f, pyStrip l, pyLower (pyStrip e),
             if pyStrip d = "" then none else some (pyStrip d)⟩], nextId := db.nextId + 1 },
         [.okFlash "student added"], true⟩ := by
  by_cases hds : pyStrip d = ""
  · simp [add, email_ok_eq_looks_like_email, dbInsert, hf, hl, he0, hv, hfresh, hds]
  · have hval := hd.resolve_left hds
    simp [add, email_ok_eq_looks_like_email, dbInsert, hf, hl, he0, hv, hfresh, hds, hval]

/-- Web insert duplicate, analogous to `addStudent_duplicate`. -/
theorem add_duplicate (db : DB) (f l e d : String)
    (hf : pyStrip f ≠ "") (hl : pyStrip l ≠ "")
    (he0 : pyLower (pyStrip e) ≠ "") (hv : looks_like_email (pyLower (pyStrip e)) = true)
    (hd : pyStrip d = "" ∨ validDateStr (pyStrip d) = true)
    (hdup : db.rows.any (fun r => r.email == pyLower (pyStrip e)) = true) :
    add true db f l e d = ⟨db, [.errDupEmail (pyLower (pyStrip e))], true⟩ := by
  by_cases hds : pyStrip d = ""
  · simp [add, email_ok_eq_looks_like_email, dbInsert, hf, hl, he0, hv, hdup, hds]
  · have hval := hd.resolve_left hds
    simp [add, email_ok_eq_looks_like_email, dbInsert, hf, hl, he0, hv, hdup, hds, hval]

/-- C8: inserting two students whose submitted emails differ only by letter
case (their trim-and-lower normalizations coincide) makes the second insert
fail with the duplicate-email outcome in both variants, because both emails
are lower-cased before the store's uniqueness check. -/
theorem C8_case_insensitive_duplicate (db : DB) (f1 l1 e1 d1 f2 l2 e2 d2 : String)
    (hf1 : pyStrip f1 ≠ "") (hl1 : pyStrip l1 ≠ "")
    (he01 : pyLower (pyStrip e1) ≠ "") (hv1 : looks_like_email (pyLower (pyStrip e1)) = true)
    (hd1 : d1 = "" ∨ (pyStrip d1 ≠ "" ∧ validDateStr (pyStrip d1) = true))
    (hf2 : pyStrip f2 ≠ "") (hl2 : pyStrip l2 ≠ "")
    (he02 : pyLower (pyStrip e2) ≠ "") (hv2 : looks_like_email (pyLower (pyStrip e2)) = true)
    (hd2 : d2 = "" ∨ (pyStrip d2 ≠ "" ∧ validDateStr (pyStrip d2) = true))
    (hfresh : db.rows.any (fun r => r.email == pyLower (pyStrip e1)) = false)
    (hcase : pyLower (pyStrip e1) = pyLower (pyStrip e2)) :
    (addStudent true db f1 l1 e1 d1).ret = true ∧
    addStudent true (addStudent true db f1 l1 e1 d1).db f2 l2 e2 d2
      = ⟨false, (addStudent true db f1 l1 e1 d1).db,
         [.errMsg "email already exists (must be unique)."], true⟩ ∧
    add true (add true db f1 l1 e1 d1).db f2 l2 e2 d2
      = ⟨(add true db f1 l1 e1 d1).db, [.errDupEmail (pyLower (pyStrip e2))], true⟩ := by
  have hd1w : pyStrip d1 = "" ∨ validDateStr (pyStrip d1) = true :=
    hd1.elim (fun h => Or.inl (by rw [h]; rfl)) (fun h => Or.inr h.2)
  have hd2w : pyStrip d2 = "" ∨ validDateStr (pyStrip d2) = true :=
    hd2.elim (fun h => Or.inl (by rw [h]; rfl)) (fun h => Or.inr h.2)
  have h1 := addStudent_success db f1 l1 e1 d1 hf1 hl1 he01 hv1 hd1 hfresh
  have h1w := add_success db f1 l1 e1 d1 hf1 hl1 he01 hv1 hd1w hfresh
  refine ⟨by rw [h1], ?_, ?_⟩
  · rw [h1]
    refine addStudent_duplicate _ f2 l2 e2 d2 hf2 hl2 he02 hv2 hd2 ?_
    rw [← hcase]
    simp
  · rw [h1w]
    refine add_duplicate _ f2 l2 e2 d2 hf2 hl2 he02 hv2 hd2w ?_
    rw [← hcase]
    simp

/-- Witness for `C8_case_insensitive_duplicate`: `A@x.com` then `a@x.com`. -/
theorem C8_case_insensitive_duplicate_witness :
    addStudent true ⟨[⟨1, "Ada", "L", "a@x.com", none⟩], 2⟩ "Grace" "H" "a@x.com" ""
      = ⟨false, ⟨[⟨1, "Ada", "L", "a@x.com", none⟩], 2⟩,
         [.errMsg "email already exists (must be unique)."], true⟩ := by
  have h := C8_case_insensitive_duplicate ⟨[], 1⟩ "Ada" "L" "A@x.com" "" "Grace" "H" "a@x.com" ""
    (by decide) (by decide) (by decide) (by decide) (Or.inl rfl)
    (by decide) (by decide) (by decide) (by decide) (Or.inl rfl)
    (by decide) (by decide)
  have h2 := h.2.1
  have hdb : (addStudent true ⟨[], 1⟩ "Ada" "L" "A@x.com" "").db
      = ⟨[⟨1, "Ada", "L", "a@x.com", none⟩], 2⟩ := by decide
  rw [hdb] at h2
  exact h2

/-- C9 counterexample: the superscript digit `"²"` passes the id digit check,
but the console operations do not end in their generic unexpected-error
branch (an `ok` outcome carrying an error message): the `int()` conversion
sits before the `try` block, so the `ValueError` escapes the function as an
uncaught exception. -/
theorem C9_counterexample :
    pyIsdigitStr "²" = true ∧
    updateStudentEmail true ⟨[], 1⟩ "²" "a@b.c" = .error .valueError ∧
    deleteStudent true ⟨[], 1⟩ "²" = .error .valueError :=
  ⟨by decide, rfl, rfl⟩

/-- C9 (amended): for every input accepted by the digit check whose integer
conversion fails (such as `"²"`: `str.isdigit` true, `int()` raises), all
four id-taking operations — console `updateStudentEmail` and
`deleteStudent`, web `update_email` and `delete` — end in an uncaught
`ValueError`, not in any handled error branch: in the console functions the
conversion sits before the `try` block, and in the web routes no handler
catches `ValueError`. -/
theorem C9_amended_uncaught_conversion (db : DB) (sidS em : String) (avail : Bool)
    (hsd : pyIsdigitStr (pyStrip sidS) = true)
    (hn : pyInt? (pyStrip sidS) = none)
    (he : looks_like_email (pyLower (pyStrip em)) = true) :
    updateStudentEmail avail db sidS em = .error .valueError ∧
    deleteStudent avail db sidS = .error .valueError ∧
    update_email true db sidS em = .error .valueError ∧
    delete true db sidS = .error .valueError := by
  refine ⟨?_, ?_, ?_, ?_⟩
  · simp [updateStudentEmail, hsd, hn]
  · simp [deleteStudent, hsd, hn]
  · simp [update_email, email_ok_eq_looks_like_email, hsd, hn, he]
  · simp [delete, hsd, hn]

/-- Witness for `C9_amended_uncaught_conversion` at the concrete input
`"²"`. -/
theorem C9_amended_uncaught_conversion_witness :
    update_email true ⟨[], 1⟩ "²" "a@b.c" = .error .valueError ∧
    delete true ⟨[], 1⟩ "²" = .error .valueError := by
  have h := C9_amended_uncaught_conversion ⟨[], 1⟩ "²" "a@b.c" true
    (by decide) (by decide) (by decide)
  exact ⟨h.2.2.1, h.2.2.2⟩

/-- Every ASCII-digit, non-empty string passes the Python digit check. -/
theorem pyIsdigitStr_of_ascii {s : String} (h1 : s.toList.isEmpty = false)
    (h2 : s.toList.all isAsciiDigit = true) : pyIsdigitStr s = true := by
  unfold pyIsdigitStr
  rw [h1]
  simp only [Bool.not_false, Bool.true_and, List.all_eq_true]
  intro c hc
  have h := List.all_eq_true.mp h2 c hc
  simp [pyIsDigit, h]

/-- `int()` on an ASCII-digit, non-empty string returns its numeric value. -/
theorem pyInt?_ascii {s : String} (h1 : s.toList.isEmpty = false)
    (h2 : s.toList.all isAsciiDigit = true) : pyInt? s = some (natOfDigits s) := by
  unfold pyInt?
  rw [h1, h2]
  simp

/-- C10: the id check accepts `"0"` (delete then reports not-found on a
store whose ids are all positive), and it accepts digit strings with leading
zeros, parsing them to their numeric value — so any two digit spellings of
the same number (like `"007"` and `"7"`) drive every id-taking operation to
the identical outcome (for the web routes, the identical resulting store and
success/failure, compared past the flash text that echoes the spelling). -/
theorem C10_id_spellings (db : DB) (s t em : String) (avail : Bool)
    (hs1 : (pyStrip s).toList.isEmpty = false)
    (hs2 : (pyStrip s).toList.all isAsciiDigit = true)
    (ht1 : (pyStrip t).toList.isEmpty = false)
    (ht2 : (pyStrip t).toList.all isAsciiDigit = true)
    (hval : natOfDigits (pyStrip s) = natOfDigits (pyStrip t)) :
    updateStudentEmail avail db s em = updateStudentEmail avail db t em ∧
    deleteStudent avail db s = deleteStudent avail db t ∧
    (update_email avail db s em).map Prod.fst = (update_email avail db t em).map Prod.fst ∧
    (delete avail db s).map Prod.fst = (delete avail db t).map Prod.fst ∧
    (db.rows.any (fun r => r.sid == 0) = false →
      deleteStudent true db "0" = .ok ⟨false, db, [.errMsg "no student with that id."]⟩) := by
  have hds := pyIsdigitStr_of_ascii hs1 hs2
  have hdt := pyIsdigitStr_of_ascii ht1 ht2
  have hns := pyInt?_ascii hs1 hs2
  have hnt := pyInt?_ascii ht1 ht2
  refine ⟨?_, ?_, ?_, ?_, ?_⟩
  · simp [updateStudentEmail, hds, hdt, hns, hnt, hval]
  · simp [deleteStudent, hds, hdt, hns, hnt, hval]
  · by_cases hem : email_ok (pyLower (pyStrip em)) = true
    · cases avail with
      | false => simp [update_email, hds, hdt, hem]
      | true =>
        simp only [update_email, hds, hdt, hem, hns, hnt, hval, Bool.not_true,
          Bool.false_eq_true, if_false]
        cases hu : dbUpdateEmail true db (natOfDigits (pyStrip t)) (pyLower (pyStrip em)) with
        | error e => cases e <;> simp [Except.map]
        | ok p =>
          rcases p with ⟨c, db'⟩
          cases c <;> simp [Except.map]
    · have hem' : email_ok (pyLower (pyStrip em)) = false := by
        simpa using hem
      simp [update_email, hds, hdt, hem']
  · cases avail with
    | false => simp [delete, hds, hdt]
    | true =>
      simp only [delete, hds, hdt, hns, hnt, hval, Bool.not_true, Bool.false_eq_true, if_false]
      cases hu : dbDelete true db (natOfDigits (pyStrip t)) with
      | error e => simp [Except.map]
      | ok p =>
        rcases p with ⟨c, db'⟩
        cases c <;> simp [Except.map]
  · intro h0any
    have h0 : db.rows.countP (fun r => r.sid == 0) = 0 := by
      rw [List.countP_eq_zero]
      intro a ha
      exact (List.any_eq_false.mp h0any) a ha
    have e2 : pyIsdigitStr (pyStrip "0") = true := by decide
    have e3 : pyInt? (pyStrip "0") = some 0 := by decide
    simp [deleteStudent, dbDelete, e2, e3, h0]

/-- Witness for `C10_id_spellings`: `"007"` and `"7"` drive the same delete
on a store holding id 7. -/
theorem C10_id_spellings_witness :
    deleteStudent true ⟨[⟨7, "Ada", "L", "ada@x.com", none⟩], 8⟩ "007"
      = deleteStudent true ⟨[⟨7, "Ada", "L", "ada@x.com", none⟩], 8⟩ "7" ∧
    deleteStudent true ⟨[⟨7, "Ada", "L", "ada@x.com", none⟩], 8⟩ "0"
      = .ok ⟨false, ⟨[⟨7, "Ada", "L", "ada@x.com", none⟩], 8⟩,
             [.errMsg "no student with that id."]⟩ := by
  have h := C10_id_spellings ⟨[⟨7, "Ada", "L", "ada@x.com", none⟩], 8⟩ "007" "7" "a@b.c" true
    (by decide) (by decide) (by decide) (by decide) (by decide)
  exact ⟨h.2.1, h.2.2.2.2 (by decide)⟩
